import Mathlib

set_option linter.unusedVariables false

/-!
Verification development for the rocon_concert repository.

Shallow embedding of two source files:
* `src/concert_conductor/src/concert_conductor/graveyard_client.py`
  (class `ConcertClient`: construction handshake, `invite`, `_update`,
  `is_ready_for_action`, `cancel_pulls`), and
* `src/concert_service_manager/src/concert_service_manager/concert_service_instance.py`
  (class `ConcertServiceInstance`: `enable`, `disable`, `_enabling`, `__del__`).

Remote service calls, ROS timing and the worker thread are modelled by
explicit outcome parameters and observation traces; Python attribute
mutation becomes explicit state passing.
-/

namespace ConcertConductor

/-- Models the external constant `rocon_std_msgs.Strings.ROCON_VERSION`
(the conductor's expected rocon version string); its concrete value is
irrelevant, only equality with a client's reported version matters. -/
def ROCON_VERSION : String := "acdc"

/-- Models the external constant
`rapp_manager_msgs.Constants.NO_REMOTE_CONNECTION`. -/
def NO_REMOTE_CONNECTION : String := "none"

/-- Models `concert_msgs.Constants.CONCERT_CLIENT_STATUS_AVAILABLE`. -/
def CONCERT_CLIENT_STATUS_AVAILABLE : String := "available"

/-- Models `concert_msgs.Constants.CONCERT_CLIENT_STATUS_CONNECTED`. -/
def CONCERT_CLIENT_STATUS_CONNECTED : String := "connected"

/-- The error-code constants of `rapp_manager_msgs.ErrorCodes` used by
`ConcertClient.invite`, modelled as distinct constructors. -/
inductive ErrorCode where
  | success
  | client_connection_disrupted
  | inviting_controller_not_whitelisted
  | inviting_controller_blacklisted
  | local_invitations_only
  | already_remote_controlled
  | other (code : Nat)
deriving DecidableEq

/-- The `platform_info` field of a concert client message
(`rocon_std_msgs.PlatformInfo`): only the fields the source reads. -/
structure PlatformInfo where
  version : String
  uri : String
deriving DecidableEq

/-- The `concert_msgs.ConcertClient` message held in `self.msg`;
`conn_stats` is opaque to the source and modelled as a number. -/
structure ConcertClientMsg where
  platform_info : PlatformInfo
  name : String
  gateway_name : String
  app_status : String
  is_local_client : Bool
  last_connection_timestamp : Nat
  client_status : String
  conn_stats : Nat
  apps : List String
deriving DecidableEq

/-- The default-constructed `concert_msgs.ConcertClient()` message. -/
def ConcertClientMsg.init : ConcertClientMsg :=
  { platform_info := { version := "", uri := "" }
    name := ""
    gateway_name := ""
    app_status := ""
    is_local_client := false
    last_connection_timestamp := 0
    client_status := ""
    conn_stats := 0
    apps := [] }

/-- The mutable state of a `ConcertClient` object (its `__slots__`,
minus the three service proxies, which are modelled by call-outcome
parameters on each operation). -/
structure ConcertClient where
  msg : ConcertClientMsg
  gateway_name : String
  concert_name : String
  is_local_client : Bool
  is_invited : Bool
  _is_ready_for_action : Bool
  is_blocking : Bool
  is_invited_elsewhere : Bool
deriving DecidableEq

/-- The field initialisation performed by `ConcertClient.__init__`
before `_pull_concert_client` / `_init` / `_update` run. -/
def ConcertClient.fresh (client_name gateway_name : String)
    (is_local_client : Bool) : ConcertClient :=
  { msg := ConcertClientMsg.init
    gateway_name := gateway_name
    concert_name := client_name
    is_local_client := is_local_client
    is_invited := false
    _is_ready_for_action := false
    is_blocking := false
    is_invited_elsewhere := false }

/-- Outcome of the remote invite service call in `ConcertClient.invite`:
either a response message arrives, or one of the three exception kinds
caught by the source (`rospy.ROSException` from `wait_for_service`,
`rospy.ROSInterruptException`, `rospy.service.ServiceException`). -/
inductive InviteCallOutcome where
  | response (result : Bool) (error_code : ErrorCode) (message : String)
  | rosException
  | rosInterruptException
  | serviceException
deriving DecidableEq

/-- Does the outcome stand for a transport failure (one of the three
caught exceptions) rather than a delivered response? -/
def InviteCallOutcome.transport_failure : InviteCallOutcome → Bool
  | .response _ _ _ => false
  | .rosException => true
  | .rosInterruptException => true
  | .serviceException => true

/-- An `rapp_manager_srvs.InviteResponse` message. -/
structure InviteResponse where
  result : Bool
  error_code : ErrorCode
  message : String
deriving DecidableEq

/-- The value of `resp` after the try/except block of
`ConcertClient.invite`: a delivered response is kept, and each caught
exception kind is replaced by the synthetic failure response the source
builds in the corresponding handler. -/
def inviteCallResponse : InviteCallOutcome → InviteResponse
  | .response r e m => { result := r, error_code := e, message := m }
  | .rosException =>
      { result := false
        error_code := .client_connection_disrupted
        message := "service not available" }
  | .rosInterruptException =>
      { result := false
        error_code := .client_connection_disrupted
        message := "interrupted by shutdown" }
  | .serviceException =>
      { result := false
        error_code := .client_connection_disrupted
        message := "message sent, but not received" }

/-- `ConcertClient.invite(concert_gateway_name, client_local_name, cancel)`.
The remote call's behaviour is the `outcome` parameter; the returned pair
is (object state after the call, the value `resp.result` the source
returns). The two name arguments only populate the request message. -/
def ConcertClient.invite (c : ConcertClient)
    (concert_gateway_name client_local_name : String) (cancel : Bool)
    (outcome : InviteCallOutcome) : ConcertClient × Bool :=
  -- quiet abort checks
  if cancel && !c.is_invited then
    (c, true)  -- kind of an automatic success
  else if !cancel && c.is_blocking then
    (c, false)
  else
    let resp := inviteCallResponse outcome
    if resp.result then
      ({ c with is_invited := !cancel
                is_invited_elsewhere := false
                is_blocking := false }, resp.result)
    else if !cancel then
      if resp.error_code = .inviting_controller_not_whitelisted ∨
         resp.error_code = .inviting_controller_blacklisted ∨
         resp.error_code = .local_invitations_only then
        ({ c with is_blocking := true }, resp.result)
      else if resp.error_code = .already_remote_controlled then
        (if !c.is_invited_elsewhere then
          { c with is_invited_elsewhere := true }
        else c, resp.result)
      else
        (c, resp.result)
    else
      (c, resp.result)

/-- Outcome of the `rosservice.get_service_list` probe inside
`ConcertClient.is_ready_for_action`: the retrieved list, or a
`rosservice.ROSServiceIOException`. -/
inductive ServiceListProbe where
  | services (service_list : List String)
  | rosServiceIOException
deriving DecidableEq

/-- `ConcertClient.is_ready_for_action()`. Returns the object state after
the call (the probe may set the `_is_ready_for_action` latch) together
with the returned boolean. -/
def ConcertClient.is_ready_for_action (c : ConcertClient)
    (probe : ServiceListProbe) : ConcertClient × Bool :=
  if !c.is_invited then
    (c, false)
  else if c._is_ready_for_action then
    (c, true)
  else
    match probe with
    | .rosServiceIOException => (c, false)
    | .services service_list =>
        let start_app_service := "/" ++ c.gateway_name ++ "/start_app"
        let c' := if start_app_service ∈ service_list then
            { c with _is_ready_for_action := true }
          else c
        (c', c'._is_ready_for_action)

/-- One entry of the `gateways` collection returned by the
`~remote_gateway_info` service (`gateway_msgs`); `conn_stats` is opaque
to the source and modelled as a number. -/
structure RemoteGateway where
  name : String
  conn_stats : Nat
deriving DecidableEq

/-- Outcome of the `self._status_service(...)` call in
`ConcertClient._update`: a status response (the two fields the source
reads) or the caught `rospy.service.ServiceException`. -/
inductive StatusCallOutcome where
  | ok (application_status : String) (remote_controller : String)
  | serviceException
deriving DecidableEq

/-- Outcome of the `self._remote_gateway_info_service()` call in
`ConcertClient._update`: the gateway list, or one of the two caught
exceptions. -/
inductive GatewayInfoCallOutcome where
  | ok (gateways : List RemoteGateway)
  | serviceException
  | rosInterruptException
deriving DecidableEq

/-- The distinct `ConcertClientException` raises of the source, one
constructor per raise site (the source distinguishes them only by
message text). -/
inductive ConcertClientException where
  | handshake_timeout
  | service_error (message : String)
  | version_mismatch (client_version conductor_version : String)
  | list_apps_timeout
  | status_unavailable
  | stats_unavailable
  | stats_unavailable_shutdown
  | stats_not_found
deriving DecidableEq

/-- `ConcertClient._update()`. Python raises propagate after the object's
`msg` fields have been mutated in place, so the model returns the
post-call state together with the raised exception (if any): `none`
means normal return. `now` models `rospy.Time.now()`. -/
def ConcertClient._update (c : ConcertClient)
    (status_outcome : StatusCallOutcome)
    (gateway_info_outcome : GatewayInfoCallOutcome) (now : Nat) :
    ConcertClient × Option ConcertClientException :=
  match status_outcome with
  | .serviceException => (c, some .status_unavailable)
  | .ok application_status remote_controller =>
    let c := { c with msg := { c.msg with
      name := c.concert_name  -- use the human friendly name
      gateway_name := c.gateway_name
      app_status := application_status
      is_local_client := c.is_local_client
      last_connection_timestamp := now
      client_status :=
        if remote_controller = NO_REMOTE_CONNECTION then
          CONCERT_CLIENT_STATUS_AVAILABLE
        else
          CONCERT_CLIENT_STATUS_CONNECTED } }
    match gateway_info_outcome with
    | .serviceException => (c, some .stats_unavailable)
    | .rosInterruptException => (c, some .stats_unavailable_shutdown)
    | .ok gateways =>
      -- scan for the entry whose name matches this client's gateway name
      match gateways.find? (fun gateway => gateway.name = c.gateway_name) with
      | some gateway =>
          ({ c with msg := { c.msg with conn_stats := gateway.conn_stats } },
           none)
      | none => (c, some .stats_not_found)

/-- Whether the four service pulls requested from the local gateway by
`_pull_concert_client` are still held on the remote side. -/
structure GatewayPullState where
  pulls_held : Bool
deriving DecidableEq

/-- `ConcertClient.cancel_pulls()`: sends the cancelling counterpart of
the pull request for the four client services, releasing them. -/
def ConcertClient.cancel_pulls (_c : ConcertClient)
    (_g : GatewayPullState) : GatewayPullState :=
  { pulls_held := false }

/-- Outcome of the block of five `wait_for_service(1.5)` calls in
`ConcertClient._init` (the source wraps all five in one try). -/
inductive WaitOutcome where
  | ok
  | rosException
  | serviceException (message : String)
deriving DecidableEq

/-- The remote-side behaviour seen by `ConcertClient._init`: the outcome
of the initial five service waits, the platform info the (unguarded)
`platform_info_service()` call returns, the outcome of the second
`list_app_service.wait_for_service(0.5)` and the app list returned. -/
structure InitEnv where
  services_wait : WaitOutcome
  platform_info_version : String
  platform_info_uri_name : String
  list_apps_wait_ok : Bool
  available_apps : List String
deriving DecidableEq

/-- `ConcertClient._init()`. Returns the object state, the state of the
gateway pulls (so that a missing `cancel_pulls` on a failure path is
observable) and the raised `ConcertClientException` (if any).
Faithful to the source: the `rospy.ROSException` handler calls
`cancel_pulls` before raising; the `rospy.ServiceException` handler
raises first, so its `cancel_pulls` line is dead code; the version
mismatch raise has no `cancel_pulls` at all; the list-apps timeout
handler cancels the pulls before raising. -/
def ConcertClient._init (c : ConcertClient) (g : GatewayPullState)
    (env : InitEnv) :
    ConcertClient × GatewayPullState × Option ConcertClientException :=
  match env.services_wait with
  | .rosException =>
      (c, c.cancel_pulls g, some .handshake_timeout)
  | .serviceException message =>
      -- raise comes before the cancel_pulls call, which is unreachable
      (c, g, some (.service_error message))
  | .ok =>
    let c := { c with msg := { c.msg with platform_info :=
      { version := env.platform_info_version
        uri := c.msg.platform_info.uri } } }
    if env.platform_info_version ≠ ROCON_VERSION then
      -- no cancel_pulls on this raise path
      (c, g, some (.version_mismatch env.platform_info_version ROCON_VERSION))
    else
      let c := { c with msg := { c.msg with
        name := env.platform_info_uri_name } }
      if env.list_apps_wait_ok then
        ({ c with msg := { c.msg with apps := env.available_apps } }, g, none)
      else
        (c, c.cancel_pulls g, some .list_apps_timeout)

end ConcertConductor

namespace ConcertServiceManager

/-- A process environment (`os.environ` or the constructor's `env`
argument), as a list of variable bindings. -/
def Env : Type := List (String × String)

instance : DecidableEq Env := by
  unfold Env
  infer_instance

/-- The `service_description` record held in `self.data`: the fields the
source reads or writes (`launcher`, `uuid`, `enabled`, `name`). -/
structure ServiceDescription where
  name : String
  launcher : String
  uuid : Nat
  enabled : Bool
deriving DecidableEq

/-- The state of a `ConcertServiceInstance` object: `data`, the child
process handle `proc` (`none` before any launch, as in the class-level
`proc = None`), the captured environment `env`, and the
`enable_error` / `enable_error_message` attributes written by
`_enabling`. The worker thread handle and the update callback carry no
data relevant to the verified claims and are omitted. -/
structure ConcertServiceInstance where
  data : ServiceDescription
  proc : Option Nat
  env : Env
  enable_error : Bool
  enable_error_message : String
deriving DecidableEq

/-- `ConcertServiceInstance.__init__(service_description, env, update_callback)`.
`os_environ` models the ambient `os.environ`; `random_uuid` models
`unique_id.fromRandom()`. Faithful to the source: the body assigns
`self.env = os.environ`, not the `env` argument. -/
def ConcertServiceInstance.init (service_description : ServiceDescription)
    (env : Env) (os_environ : Env) (random_uuid : Nat) :
    ConcertServiceInstance :=
  { data := { service_description with uuid := random_uuid }
    proc := none
    env := os_environ
    enable_error := false
    enable_error_message := "" }

/-- Outcome of the `subprocess.Popen(launcher, env=...)` call in
`_enabling`: a process handle, or a raised exception with a message. -/
inductive SpawnOutcome where
  | ok (handle : Nat)
  | spawn_error (message : String)
deriving DecidableEq

/-- `ConcertServiceInstance._enabling()`. `spawn` is the process host:
it receives the argument vector (the launch command split on single
spaces) and the environment the source passes (`self.env`). On success
the process handle is stored and `enabled` is set; on an exception
`enable_error` and `enable_error_message` are set. -/
def ConcertServiceInstance._enabling (inst : ConcertServiceInstance)
    (spawn : List String → Env → SpawnOutcome) : ConcertServiceInstance :=
  let launcher := inst.data.launcher.splitOn " "
  match spawn launcher inst.env with
  | .ok handle =>
      { inst with proc := some handle
                  data := { inst.data with enabled := true }
                  enable_error := false }
  | .spawn_error message =>
      { inst with enable_error := true
                  enable_error_message := message }

/-- One run of the polling loop inside `ConcertServiceInstance.enable()`,
seen from the calling thread: the values the n-th loop iteration
observes for `self.data.enabled`, `rospy.is_shutdown()` and
`self.enable_error` (all written concurrently by the worker thread or
ROS). `error_message` is the `self.enable_error_message` read when the
error is observed. -/
structure EnableTrace where
  enabledAt : Nat → Bool
  shutdownAt : Nat → Bool
  errorAt : Nat → Bool
  error_message : String

/-- The `while not self.data.enabled and not rospy.is_shutdown()` loop of
`enable()`, from iteration `n` on. `fuel` bounds the number of observed
iterations; `none` means the loop was still running after `fuel`
iterations. Returns the `(success, message)` pair `enable` returns. -/
def enable_loop (tr : EnableTrace) : Nat → Nat → Option (Bool × String)
  | _, 0 => none
  | n, fuel + 1 =>
    if !tr.enabledAt n && !tr.shutdownAt n then
      -- loginfo("Waiting service to be enabled"); rospy.sleep(1)
      if tr.errorAt n then
        -- raise Exception(self.enable_error_message), caught below
        some (false, "Error while enabling service : " ++ tr.error_message)
      else
        enable_loop tr (n + 1) fuel
    else
      some (true, "Success")

/-- `ConcertServiceInstance.enable()`: starts the worker thread (whose
effects are reflected in the trace) and polls until `enabled` or
shutdown is observed, or the enabling error is seen and re-raised. -/
def ConcertServiceInstance.enable (tr : EnableTrace) (fuel : Nat) :
    Option (Bool × String) :=
  enable_loop tr 0 fuel

/-- One run of the polling loop inside `disable()`: `enabledAt n` is the
n-th read of `self.data.enabled` (read 0 is the initial
already-disabled check; reads 1, 2, ... are the loop condition reads),
`shutdownAt n` the paired `rospy.is_shutdown()` read. -/
structure DisableTrace where
  enabledAt : Nat → Bool
  shutdownAt : Nat → Bool

/-- The result of `disable()`: the returned `(success, message)` pair,
plus whether `self.proc.kill()` was issued along the way. -/
structure DisableResult where
  success : Bool
  message : String
  kill_called : Bool
deriving DecidableEq

/-- The `while self.data.enabled and not rospy.is_shutdown()` loop of
`disable()`, from read index `n` with the current `count` and
`force_kill` values. `fuel` bounds the number of observed iterations;
`none` means the loop was still running after `fuel` iterations. -/
def disable_loop (tr : DisableTrace) :
    Nat → Nat → Bool → Nat → Option DisableResult
  | _, _, _, 0 => none
  | count, n, force_kill, fuel + 1 =>
    if tr.enabledAt n && !tr.shutdownAt n then
      let count := count + 1
      -- rospy.sleep(1)
      if count = 10 then
        -- loginfo("Waited too long. Force killing.."); self.proc.kill()
        disable_loop tr count (n + 1) true fuel
      else
        disable_loop tr count (n + 1) force_kill fuel
    else
      some { success := true
             message := if force_kill then "Force Killed" else "Terminated"
             kill_called := force_kill }

/-- `ConcertServiceInstance.disable()`: early success if already
disabled, otherwise `self.proc.terminate()` followed by the poll loop
with kill escalation at the tenth poll. -/
def ConcertServiceInstance.disable (tr : DisableTrace) (fuel : Nat) :
    Option DisableResult :=
  if tr.enabledAt 0 = false then
    some { success := true, message := "Already disabled", kill_called := false }
  else
    -- self.proc.terminate()
    disable_loop tr 0 1 false fuel

/-- What `ConcertServiceInstance.__del__` does: `self.proc.kill()`. When
`proc` is `None` (no child was ever launched) the attribute access on
`None` raises `AttributeError` and no kill happens. -/
inductive DelOutcome where
  | killed (handle : Nat)
  | attribute_error
deriving DecidableEq

/-- `ConcertServiceInstance.__del__()`. -/
def ConcertServiceInstance.del (inst : ConcertServiceInstance) : DelOutcome :=
  match inst.proc with
  | some handle => .killed handle
  | none => .attribute_error

end ConcertServiceManager

open ConcertConductor ConcertServiceManager

/-- A freshly constructed client session (fields as `__init__` sets them
before the handshake), used as a concrete evaluation point. -/
def exampleClient : ConcertClient :=
  ConcertClient.fresh "alpha" "gateway_alpha" false

/-- A session that has been invited and whose readiness latch has been
observed true, used as a concrete evaluation point. -/
def readyClient : ConcertClient :=
  { ConcertClient.fresh "alpha" "gateway_alpha" false with
      is_invited := true
      _is_ready_for_action := true }

/-- A service instance constructed with an explicit environment argument
that differs from the ambient `os.environ` (here empty). -/
def keyedEnvInstance : ConcertServiceInstance :=
  ConcertServiceInstance.init
    { name := "svc", launcher := "run.sh --flag", uuid := 0, enabled := false }
    [("KEY", "1")] [] 7

/-- A process host that succeeds exactly when handed the environment the
service instance was constructed with. -/
def keyedEnvProbe : List String → Env → SpawnOutcome := fun _ env =>
  if env = [("KEY", "1")] then .ok 1
  else .spawn_error "spawned with an environment differing from the constructor argument"

/-- An `enable()` run in which the child never reaches the enabled state
and ROS shutdown is observed at the first poll. -/
def shutdownEnableTrace : EnableTrace :=
  { enabledAt := fun _ => false
    shutdownAt := fun _ => true
    errorAt := fun _ => false
    error_message := "" }

/-- An `enable()` run in which the launch has completed by the first
poll. -/
def launchedEnableTrace : EnableTrace :=
  { enabledAt := fun _ => true
    shutdownAt := fun _ => false
    errorAt := fun _ => false
    error_message := "" }

/-- A `disable()` run of a cooperative child: enabled at the initial
check and the first two loop polls, observed disabled at the third. -/
def cooperativeDisableTrace : DisableTrace :=
  { enabledAt := fun n => decide (n < 3)
    shutdownAt := fun _ => false }

/-- A service instance on which `enable()` was never called, so no child
process was ever launched. -/
def neverLaunchedInstance : ConcertServiceInstance :=
  ConcertServiceInstance.init
    { name := "svc", launcher := "run.sh", uuid := 0, enabled := false }
    [] [] 3

/-- C1: in the source, a session constructed against an endpoint whose
reported rocon version differs from the conductor's fails with the
version-mismatch exception, but `_init` raises it without calling
`cancel_pulls`, so the four remote service pulls acquired during the
handshake remain held on this failure path (evaluated at a concrete
failing input). -/
theorem C1_version_mismatch_leaves_pulls_held :
    ((ConcertClient.fresh "clientA" "gatewayA" false)._init
        { pulls_held := true }
        { services_wait := .ok
          platform_info_version := "mismatched"
          platform_info_uri_name := "clientA"
          list_apps_wait_ok := true
          available_apps := [] }).2 =
      ({ pulls_held := true },
       some (.version_mismatch "mismatched" ROCON_VERSION)) := by
  decide

/-- C2: in the source, `__init__` assigns `self.env = os.environ` and
ignores its `env` argument, so a service constructed with the explicit
environment KEY=1 stores the ambient environment (here empty) instead,
and `_enabling` hands that ambient environment — not the constructor
argument — to the process host (evaluated at a concrete failing
input, with a host that succeeds exactly on the constructor's
environment). -/
theorem C2_constructor_environment_ignored :
    keyedEnvInstance.env = [] ∧
    (keyedEnvInstance._enabling keyedEnvProbe).enable_error = true ∧
    (keyedEnvInstance._enabling keyedEnvProbe).data.enabled = false := by
  refine ⟨rfl, rfl, rfl⟩

/-- C3 counterexample: an `enable()` run in which the child never
becomes enabled but ROS shutdown is observed makes the polling loop
exit and `enable` return success, refuting the claim that success is
returned only once the launch is confirmed. -/
theorem C3_counterexample_shutdown_returns_success :
    ConcertServiceInstance.enable shutdownEnableTrace 1 =
      some (true, "Success") := rfl

/-- C8: in the source, `__del__` runs `self.proc.kill()` unconditionally;
on an instance whose child was never launched `proc` is `None`, so
destruction raises `AttributeError` instead of completing without error
(evaluated at a concrete failing input). -/
theorem C8_del_before_launch_raises :
    neverLaunchedInstance.del = DelOutcome.attribute_error := rfl

/-- Helper: the synthetic response substituted for a caught transport
exception is a failure carrying the connection-disrupted code. -/
lemma inviteCallResponse_of_transport_failure (outcome : InviteCallOutcome)
    (ht : outcome.transport_failure = true) :
    (inviteCallResponse outcome).result = false ∧
    (inviteCallResponse outcome).error_code =
      ErrorCode.client_connection_disrupted := by
  cases outcome <;> simp_all [InviteCallOutcome.transport_failure, inviteCallResponse]

/-- Helper: when the remote invite call ends in a transport failure, the
session object is returned unchanged by `invite`. -/
lemma invite_state_unchanged_of_transport_failure (c : ConcertClient)
    (g l : String) (cancel : Bool) (outcome : InviteCallOutcome)
    (ht : outcome.transport_failure = true) :
    (c.invite g l cancel outcome).1 = c := by
  obtain ⟨hres, hcode⟩ := inviteCallResponse_of_transport_failure outcome ht
  unfold ConcertClient.invite
  split
  · rfl
  · split
    · rfl
    · simp only [hres, hcode]
      have h1 : ¬(ErrorCode.client_connection_disrupted =
            ErrorCode.inviting_controller_not_whitelisted ∨
          ErrorCode.client_connection_disrupted =
            ErrorCode.inviting_controller_blacklisted ∨
          ErrorCode.client_connection_disrupted =
            ErrorCode.local_invitations_only) := by decide
      have h2 : ¬(ErrorCode.client_connection_disrupted =
          ErrorCode.already_remote_controlled) := by decide
      simp only [if_neg h1, if_neg h2, Bool.false_eq_true, if_false]
      split <;> rfl

/-- C5: a call to `invite` that ends in a transport failure (service
unavailable, interrupted by shutdown, or message lost) leaves the
`is_invited`, `is_blocking` and `is_invited_elsewhere` flags exactly as
they were before the call. -/
theorem C5_transport_failure_preserves_flags (c : ConcertClient)
    (g l : String) (cancel : Bool) (outcome : InviteCallOutcome)
    (ht : outcome.transport_failure = true) :
    (c.invite g l cancel outcome).1.is_invited = c.is_invited ∧
    (c.invite g l cancel outcome).1.is_blocking = c.is_blocking ∧
    (c.invite g l cancel outcome).1.is_invited_elsewhere =
      c.is_invited_elsewhere := by
  rw [invite_state_unchanged_of_transport_failure c g l cancel outcome ht]
  exact ⟨rfl, rfl, rfl⟩

/-- C5 witness: the frame property evaluated on a fresh session and a
timed-out invite call. -/
theorem C5_witness :
    (exampleClient.invite "concert_gw" "alias" false .rosException).1.is_invited
        = exampleClient.is_invited ∧
    (exampleClient.invite "concert_gw" "alias" false .rosException).1.is_blocking
        = exampleClient.is_blocking ∧
    (exampleClient.invite "concert_gw" "alias" false
        .rosException).1.is_invited_elsewhere
        = exampleClient.is_invited_elsewhere :=
  C5_transport_failure_preserves_flags exampleClient "concert_gw" "alias"
    false .rosException rfl

/-- C4 counterexample: `invite` returns only `resp.result`, never the
error-code classification: a transport failure and a blacklist
rejection — two failures the source classifies differently, as their
different effect on `is_blocking` shows — produce identical return
values, so the classification is not part of the return. -/
theorem C4_counterexample_return_lacks_classification :
    (exampleClient.invite "concert_gw" "alias" false .rosException).2 =
      (exampleClient.invite "concert_gw" "alias" false
        (.response false .inviting_controller_blacklisted "refused")).2 ∧
    (exampleClient.invite "concert_gw" "alias" false
        .rosException).1.is_blocking = false ∧
    (exampleClient.invite "concert_gw" "alias" false
        (.response false .inviting_controller_blacklisted "refused")).1.is_blocking
      = true := by
  decide

/-- C4 amended: `invite` returns the boolean success/failure outcome
only (the error-code classification drives internal state, not the
return value), and it never raises for a remote-call failure: each of
the three transport-failure exception kinds is caught and replaced by a
synthetic failure response carrying the connection-disrupted code, and
whenever such a call is not short-circuited into an automatic uninvite
success the returned boolean is false. -/
theorem C4_invite_returns_bool_and_never_raises (c : ConcertClient)
    (g l : String) (cancel : Bool) (outcome : InviteCallOutcome)
    (ht : outcome.transport_failure = true)
    (hc : cancel = true → c.is_invited = true) :
    (inviteCallResponse outcome).result = false ∧
    (inviteCallResponse outcome).error_code =
      ErrorCode.client_connection_disrupted ∧
    (c.invite g l cancel outcome).2 = false := by
  obtain ⟨hres, hcode⟩ := inviteCallResponse_of_transport_failure outcome ht
  refine ⟨hres, hcode, ?_⟩
  unfold ConcertClient.invite
  split
  · rename_i hshort
    simp only [Bool.and_eq_true, Bool.not_eq_true'] at hshort
    rw [hc hshort.1] at hshort
    exact absurd hshort.2 (by simp)
  · split
    · rfl
    · simp only [hres, Bool.false_eq_true, if_false]
      split_ifs <;> rfl

/-- C4 witness: the amended behaviour evaluated on a fresh session and a
lost-message invite call. -/
theorem C4_witness :
    (inviteCallResponse .serviceException).result = false ∧
    (inviteCallResponse .serviceException).error_code =
      ErrorCode.client_connection_disrupted ∧
    (exampleClient.invite "concert_gw" "alias" false .serviceException).2 =
      false :=
  C4_invite_returns_bool_and_never_raises exampleClient "concert_gw" "alias"
    false .serviceException rfl (fun h => nomatch h)

/-- C6: when the remote invite call actually happens (neither quiet
abort applies) and its response reports success, the session ends with
`is_invited` equal to the negation of `cancel` and with both
`is_invited_elsewhere` and `is_blocking` cleared, and the call returns
true. -/
theorem C6_invite_success_sets_flags (c : ConcertClient)
    (g l m : String) (e : ErrorCode) (cancel : Bool)
    (hinv : cancel = true → c.is_invited = true)
    (hblk : cancel = false → c.is_blocking = false) :
    (c.invite g l cancel (.response true e m)).1.is_invited = !cancel ∧
    (c.invite g l cancel (.response true e m)).1.is_blocking = false ∧
    (c.invite g l cancel (.response true e m)).1.is_invited_elsewhere
      = false ∧
    (c.invite g l cancel (.response true e m)).2 = true := by
  unfold ConcertClient.invite
  split
  · rename_i hshort
    simp only [Bool.and_eq_true, Bool.not_eq_true'] at hshort
    rw [hinv hshort.1] at hshort
    exact absurd hshort.2 (by simp)
  · split
    · rename_i hshort
      simp only [Bool.and_eq_true, Bool.not_eq_true'] at hshort
      rw [hblk hshort.1] at hshort
      exact absurd hshort.2 (by simp)
    · exact ⟨rfl, rfl, rfl, rfl⟩

/-- C6 witness: a fresh (not blocked) session successfully invited. -/
theorem C6_witness :
    (exampleClient.invite "concert_gw" "alias" false
        (.response true .success "ok")).1.is_invited = !false ∧
    (exampleClient.invite "concert_gw" "alias" false
        (.response true .success "ok")).1.is_blocking = false ∧
    (exampleClient.invite "concert_gw" "alias" false
        (.response true .success "ok")).1.is_invited_elsewhere = false ∧
    (exampleClient.invite "concert_gw" "alias" false
        (.response true .success "ok")).2 = true :=
  C6_invite_success_sets_flags exampleClient "concert_gw" "alias" "ok"
    .success false (fun h => nomatch h) (fun _ => rfl)

/-- C9: the readiness latch is monotone across the session's lifetime:
on a session whose latch has been observed true, a successful uninvite
followed by a successful re-invite leaves the latch set, and
`is_ready_for_action` then returns true for every probe outcome —
including a failing probe — without mutating the session (no re-probe
of the remote side). -/
theorem C9_ready_latch_survives_reinvite (c : ConcertClient)
    (g l m1 m2 : String) (e1 e2 : ErrorCode) (probe : ServiceListProbe)
    (hlatch : c._is_ready_for_action = true)
    (hblk : c.is_blocking = false) :
    (((c.invite g l true (.response true e1 m1)).1.invite g l false
        (.response true e2 m2)).1._is_ready_for_action = true) ∧
    (((c.invite g l true (.response true e1 m1)).1.invite g l false
        (.response true e2 m2)).1.is_ready_for_action probe =
      (((c.invite g l true (.response true e1 m1)).1.invite g l false
        (.response true e2 m2)).1, true)) := by
  cases hinv : c.is_invited <;>
    simp [ConcertClient.invite, ConcertClient.is_ready_for_action,
      inviteCallResponse, hlatch, hblk, hinv]

/-- C9 witness: a latched, invited session taken through a successful
uninvite and re-invite reports readiness on a failing probe. -/
theorem C9_witness :
    (((readyClient.invite "concert_gw" "alias" true
        (.response true .success "ok")).1.invite "concert_gw" "alias" false
        (.response true .success "ok")).1._is_ready_for_action = true) ∧
    (((readyClient.invite "concert_gw" "alias" true
        (.response true .success "ok")).1.invite "concert_gw" "alias" false
        (.response true .success "ok")).1.is_ready_for_action
        .rosServiceIOException =
      (((readyClient.invite "concert_gw" "alias" true
        (.response true .success "ok")).1.invite "concert_gw" "alias" false
        (.response true .success "ok")).1, true)) :=
  C9_ready_latch_survives_reinvite readyClient "concert_gw" "alias" "ok" "ok"
    .success .success .rosServiceIOException rfl rfl

/-- C10: when the status call succeeds but no entry of the returned
connection statistics matches the session's gateway name, `_update`
raises the stats-not-found error only after having overwritten the
snapshot's name, gateway name, application status, local-client flag,
last-connection timestamp and availability classification, while
`conn_stats` keeps its previous value. -/
theorem C10_update_overwrites_before_stats_not_found (c : ConcertClient)
    (application_status remote_controller : String)
    (gateways : List RemoteGateway) (now : Nat)
    (hnone : ∀ gw ∈ gateways, ¬(gw.name = c.gateway_name)) :
    c._update (.ok application_status remote_controller) (.ok gateways) now =
      ({ c with msg := { c.msg with
            name := c.concert_name
            gateway_name := c.gateway_name
            app_status := application_status
            is_local_client := c.is_local_client
            last_connection_timestamp := now
            client_status :=
              if remote_controller = NO_REMOTE_CONNECTION then
                CONCERT_CLIENT_STATUS_AVAILABLE
              else CONCERT_CLIENT_STATUS_CONNECTED } },
       some .stats_not_found) := by
  have hfind :
      gateways.find? (fun gateway => gateway.name = c.gateway_name) = none := by
    rw [List.find?_eq_none]
    intro x hx
    simpa using hnone x hx
  simp only [ConcertClient._update]
  rw [hfind]

/-- C10 witness: a concrete session refreshed against statistics naming
only a different gateway. -/
theorem C10_witness :
    exampleClient._update (.ok "running" "someone") (.ok [⟨"other_gateway", 5⟩]) 42 =
      ({ exampleClient with msg := { exampleClient.msg with
            name := exampleClient.concert_name
            gateway_name := exampleClient.gateway_name
            app_status := "running"
            is_local_client := exampleClient.is_local_client
            last_connection_timestamp := 42
            client_status :=
              if ("someone" : String) = NO_REMOTE_CONNECTION then
                CONCERT_CLIENT_STATUS_AVAILABLE
              else CONCERT_CLIENT_STATUS_CONNECTED } },
       some .stats_not_found) :=
  C10_update_overwrites_before_stats_not_found exampleClient "running"
    "someone" [⟨"other_gateway", 5⟩] 42 (by decide)

/-- Helper: if the `enable()` polling loop returns success, some
iteration observed the enabled flag or the shutdown flag set. -/
lemma enable_loop_success_exit (tr : EnableTrace) :
    ∀ (fuel n : Nat) (m : String),
      enable_loop tr n fuel = some (true, m) →
      ∃ k, tr.enabledAt k = true ∨ tr.shutdownAt k = true := by
  intro fuel
  induction fuel with
  | zero =>
    intro n m h
    exact absurd h (by simp [enable_loop])
  | succ fuel ih =>
    intro n m h
    unfold enable_loop at h
    split at h
    · split at h
      · exact absurd h (by simp)
      · exact ih (n + 1) m h
    · rename_i hcond
      refine ⟨n, ?_⟩
      simp only [Bool.and_eq_true, Bool.not_eq_true'] at hcond
      rcases not_and_or.mp hcond with hne | hne
      · exact Or.inl (by simpa using hne)
      · exact Or.inr (by simpa using hne)

/-- C3 amended: `enable()` reports success only when its wait loop
observed either the enabled flag set (launch confirmed) or a ROS
shutdown; in a run without shutdown, success therefore implies the
launch completed. -/
theorem C3_enable_success_needs_enabled_or_shutdown (tr : EnableTrace)
    (fuel : Nat) (m : String)
    (h : ConcertServiceInstance.enable tr fuel = some (true, m)) :
    ∃ k, tr.enabledAt k = true ∨ tr.shutdownAt k = true :=
  enable_loop_success_exit tr fuel 0 m h

/-- C3 witness: a run whose launch completes by the first poll returns
success, and the amended property applies to it. -/
theorem C3_witness :
    ConcertServiceInstance.enable launchedEnableTrace 1 =
      some (true, "Success") ∧
    (∃ k, launchedEnableTrace.enabledAt k = true ∨
      launchedEnableTrace.shutdownAt k = true) :=
  ⟨rfl, C3_enable_success_needs_enabled_or_shutdown launchedEnableTrace 1
    "Success" rfl⟩

/-- Helper: full characterisation of the `disable()` polling loop on a
run without shutdown whose first disabled observation (at or after the
current read index `n`) is at index `j`: the loop returns success, and
the kill escalation fires exactly when the running count reaches 10
along the way. -/
lemma disable_loop_exit (tr : DisableTrace)
    (hshut : ∀ n, tr.shutdownAt n = false) :
    ∀ (fuel n count : Nat) (force : Bool) (j : Nat),
      n ≤ j →
      (∀ k, n ≤ k → k < j → tr.enabledAt k = true) →
      tr.enabledAt j = false →
      j - n < fuel →
      disable_loop tr count n force fuel =
        some { success := true
               message :=
                 if (force || (decide (count < 10) &&
                     decide (10 ≤ count + (j - n)))) = true then "Force Killed"
                 else "Terminated"
               kill_called := force || (decide (count < 10) &&
                 decide (10 ≤ count + (j - n))) } := by
  intro fuel
  induction fuel with
  | zero =>
    intro n count force j h1 _ _ h4
    omega
  | succ fuel ih =>
    intro n count force j hnj hall hj hfuel
    unfold disable_loop
    by_cases heq : n = j
    · subst heq
      have hb : (decide (count < 10) && decide (10 ≤ count + (n - n))) = false := by
        by_cases h : count < 10 <;> simp [h] <;> omega
      have hnot : ¬(count < 10 ∧ 10 ≤ count) := by omega
      simp [hj, hb]
      by_cases hf : force = true <;> simp [hf, hnot]
    · have hlt : n < j := lt_of_le_of_ne hnj heq
      have hen : tr.enabledAt n = true := hall n le_rfl hlt
      rw [hen, hshut n]
      simp only [Bool.not_false, Bool.and_true, if_true]
      by_cases h10 : count + 1 = 10
      · rw [if_pos h10]
        rw [ih (n + 1) (count + 1) true j hlt
          (fun k hk1 hk2 => hall k (by omega) hk2) hj (by omega)]
        have hb : (force || (decide (count < 10) &&
            decide (10 ≤ count + (j - n)))) = true := by
          have h9 : count = 9 := by omega
          subst h9
          have : 10 ≤ 9 + (j - n) := by omega
          simp [this]
        rw [hb]
        simp
      · rw [if_neg h10]
        rw [ih (n + 1) (count + 1) force j hlt
          (fun k hk1 hk2 => hall k (by omega) hk2) hj (by omega)]
        have harith : count + 1 + (j - (n + 1)) = count + (j - n) := by omega
        rw [harith]
        have hbeq : (decide (count + 1 < 10) && decide (10 ≤ count + (j - n)))
            = (decide (count < 10) && decide (10 ≤ count + (j - n))) := by
          by_cases ha : 10 ≤ count + (j - n)
          · simp only [decide_eq_true ha, Bool.and_true]
            rw [decide_eq_decide]
            omega
          · simp [decide_eq_false ha]
        rw [hbeq]

/-- C7: two-phase termination of `disable()` on an enabled service, in a
run without shutdown whose first disabled observation in the poll loop
is at poll `j`: if the child's exit is observed within the first 10
polls the call returns success with message Terminated and no forced
kill is issued; if all of the first 10 polls still see the service
enabled, a forced kill is issued and the call returns success with
message Force Killed. -/
theorem C7_disable_graceful_then_force (tr : DisableTrace) (j fuel : Nat)
    (hshut : ∀ n, tr.shutdownAt n = false)
    (h0 : tr.enabledAt 0 = true)
    (hj1 : 1 ≤ j)
    (hall : ∀ k, 1 ≤ k → k < j → tr.enabledAt k = true)
    (hj : tr.enabledAt j = false)
    (hfuel : j - 1 < fuel) :
    ConcertServiceInstance.disable tr fuel =
      some { success := true
             message := if j ≤ 10 then "Terminated" else "Force Killed"
             kill_called := decide (10 < j) } := by
  unfold ConcertServiceInstance.disable
  rw [if_neg (by simp [h0])]
  rw [disable_loop_exit tr hshut fuel 1 0 false j hj1 hall hj hfuel]
  have hb : (false || (decide ((0 : Nat) < 10) &&
      decide (10 ≤ 0 + (j - 1)))) = decide (10 < j) := by
    simp only [Bool.false_or, Nat.zero_add]
    have h010 : decide ((0 : Nat) < 10) = true := by decide
    rw [h010, Bool.true_and, decide_eq_decide]
    omega
  rw [hb]
  by_cases hc : 10 < j
  · have h1 : decide (10 < j) = true := decide_eq_true hc
    have h2 : ¬(j ≤ 10) := by omega
    simp [h1, h2]
  · have h1 : decide (10 < j) = false := decide_eq_false hc
    have h2 : j ≤ 10 := by omega
    simp [h1, h2]

/-- C7 witness: a cooperative child observed disabled at the third poll
is reported Terminated with no kill. -/
theorem C7_witness :
    ConcertServiceInstance.disable cooperativeDisableTrace 5 =
      some { success := true, message := "Terminated", kill_called := false } := by
  have h := C7_disable_graceful_then_force cooperativeDisableTrace 3 5
      (fun _ => rfl) rfl (by omega)
      (fun k hk1 hk2 => by
        show decide (k < 3) = true
        exact decide_eq_true hk2)
      (by show decide (3 < 3) = false; decide)
      (by omega)
  simpa using h
